import Mathlib

/-!
Shallow embedding of `src/Spectrum.py` (repository Alexperiment/fit-BEL).

Numeric values are modelled as rationals (`ℚ`): every pipeline arithmetic
operation on finite data (scaling, division by `1 + z`, variance) is exact
rational arithmetic.  The one place where numpy produces non-finite floats on
finite input is the inverse-variance computation (`1 / np.var(...)`), so the
`ivar` array lives in `RVal`, rationals extended with `inf` and `nan`:
`np.var` of an empty array is `nan`, `1 / 0.0` is `inf`, `1 / nan` is `nan`.

`10 ** wavelength` (float power) and the external `extinction` library
(`fitzpatrick99`, `remove`) have no exact rational form; they are taken as
function parameters of the model, so every theorem holds for an arbitrary
interpretation of them.
-/

namespace FitBEL

/-- A numpy floating value arising in the ivar pipeline: a finite rational,
positive infinity, or nan. -/
inductive RVal
  | fin (q : ℚ)
  | inf
  | nan
deriving DecidableEq, Repr

/-- numpy comparison `x != 0`: `nan != 0` and `inf != 0` are both `True`;
a finite value compares unequal to zero exactly when it is nonzero. -/
def npNeZero : RVal → Bool
  | RVal.fin q => decide (q ≠ 0)
  | RVal.inf => true
  | RVal.nan => true

/-- `np.var` with default `ddof = 0` (population variance): mean of squared
deviations from the mean; on an empty array numpy yields `nan`. -/
def npVar (xs : List ℚ) : RVal :=
  if xs = [] then RVal.nan
  else
    let n : ℚ := xs.length
    let m : ℚ := xs.sum / n
    RVal.fin ((xs.map (fun x => (x - m) ^ 2)).sum / n)

/-- numpy reciprocal `1 / x`: `1 / 0.0 = inf` (with a RuntimeWarning, not an
exception), `1 / inf = 0.0`, `1 / nan = nan`. -/
def npInv : RVal → RVal
  | RVal.fin q => if q = 0 then RVal.inf else RVal.fin (1 / q)
  | RVal.inf => RVal.fin 0
  | RVal.nan => RVal.nan

/-- numpy boolean-mask indexing `xs[mask]`: keep the entries of `xs` whose
aligned mask entry is `true`, in order. -/
def boolMask {α : Type} (xs : List α) (mask : List Bool) : List α :=
  ((xs.zip mask).filter (fun p => p.2)).map (fun p => p.1)

/-- The columnar table produced by `read_txt` / `read_fits`: a `lambda`
column, a `flux` column, and optionally an `ivar` column (only a binary
table can carry one).  In a dataframe all columns have the same length. -/
structure DataTable where
  lam : List ℚ
  flux : List ℚ
  ivar : Option (List ℚ)
deriving DecidableEq, Repr

/-- The module-level configuration value `config.IVAR_INTERVALS`, a
two-element wavelength interval `[lo, hi]`. -/
structure Config where
  lo : ℚ
  hi : ℚ
deriving DecidableEq, Repr

/-- `read_txt`: `pd.read_csv` parses the delimited rows into exactly two
columns which are then named `lambda` and `flux`; no `ivar` column.  The
model takes the already-parsed numeric rows. -/
def read_txt (rows : List (ℚ × ℚ)) : DataTable :=
  ⟨rows.map (fun r => r.1), rows.map (fun r => r.2), none⟩

/-- `read_fits`: reads the first data extension, lower-cases column names and
renames `loglam` to `lambda`; all columns (including any `ivar`) flow
through.  The model takes the resulting table directly. -/
def read_fits (table : DataTable) : DataTable := table

/-- Python `str.endswith`, evaluated on the character sequence of the
string. -/
def pyEndsWith (s suffix : String) : Bool :=
  suffix.data.isSuffixOf s.data

/-- `read_data`: dispatch on the file-path extension.  `.txt` goes to the
delimited parser, `.fits` to the binary-table parser; any other path falls
off the `if/elif` with no `else`, so Python implicitly returns `None`,
modelled as `none`. -/
def read_data (file_path : String) (txtRows : List (ℚ × ℚ))
    (fitsTable : DataTable) : Option DataTable :=
  if pyEndsWith file_path ".txt" then some (read_txt txtRows)
  else if pyEndsWith file_path ".fits" then some (read_fits fitsTable)
  else none

/-- `Spectrum._linearize_wavelength`: when the flag is set and
`np.max(wavelength) < 5`, replace the array by `10 ** wavelength`
elementwise.  `pow10` stands for the float power `10 ** ·`.  (`np.max` of an
empty array raises; the `none` branch is unreachable for loaded data.) -/
def linearize_wavelength (enabled : Bool) (pow10 : ℚ → ℚ)
    (wl : List ℚ) : List ℚ :=
  if enabled then
    match wl.max? with
    | some m => if m < 5 then wl.map pow10 else wl
    | none => wl
  else wl

/-- Outcome of a Python call that can raise: a value, or an uncaught
`AttributeError` that aborts construction. -/
inductive PyOutcome (α : Type) where
  | ok (val : α)
  | attributeError
deriving DecidableEq, Repr

/-- `self.wavelength.to_numpy(dtype=np.double)` on line 45:
`self.wavelength` is always a numpy ndarray (assigned from `.values` on
line 23 and only ever replaced by ndarray results of `10 **` or `/`), and
an ndarray has no `to_numpy` attribute — that is a pandas method — so this
attribute access raises `AttributeError` unconditionally; modelled as
`none`. -/
def wavelength_to_numpy (_wl : List ℚ) : Option (List ℚ) :=
  none

/-- `Spectrum._correct_extinction`: skipped entirely (Python returns `None`)
when no `A_v` magnitude was supplied.  When one was supplied, the method
first evaluates `self.wavelength.to_numpy(dtype=np.double)`, which raises
`AttributeError` (see `wavelength_to_numpy`), aborting construction; only
if that conversion succeeded would the method compute
`remove(fitzpatrick99(wavelength, a_v, r_v), flux)` and return it — a
return value `__init__` then discards.  `fp99` and `ext_remove` stand for
the external library functions. -/
def correct_extinction (fp99 : List ℚ → ℚ → ℚ → List ℚ)
    (ext_remove : List ℚ → List ℚ → List ℚ)
    (a_v : Option ℚ) (r_v : ℚ) (wl fl : List ℚ) :
    PyOutcome (Option (List ℚ)) :=
  match a_v with
  | none => PyOutcome.ok none
  | some av =>
    match wavelength_to_numpy wl with
    | none => PyOutcome.attributeError
    | some w => PyOutcome.ok (some (ext_remove (fp99 w av r_v) fl))

/-- `Spectrum._to_rest_frame`: when the flag is set, divide wavelength by
`1 + redshift` and multiply flux by `1 + redshift`, elementwise. -/
def to_rest_frame (enabled : Bool) (z : ℚ) (wl fl : List ℚ) :
    List ℚ × List ℚ :=
  if enabled then (wl.map (fun w => w / (1 + z)), fl.map (fun f => f * (1 + z)))
  else (wl, fl)

/-- `Spectrum._calculate_ivar`.  If the loaded table has an `ivar` column,
return it.  Otherwise: when the spectrum was not moved to rest frame,
REBIND `config.IVAR_INTERVALS` to the interval scaled by `1 + redshift`
(the model threads the config value explicitly and returns the new one);
select the flux samples whose wavelength lies in the (possibly rescaled)
closed interval; broadcast `1 / np.var(continuum)` over the whole spectrum
with `np.full(len(wavelength), ivar)`. -/
def calculate_ivar (cfg : Config) (table : DataTable) (rest_frame : Bool)
    (z : ℚ) (wl fl : List ℚ) : Config × List RVal :=
  match table.ivar with
  | some iv => (cfg, iv.map RVal.fin)
  | none =>
    let cfg' : Config :=
      if rest_frame then cfg else ⟨cfg.lo * (1 + z), cfg.hi * (1 + z)⟩
    let continuum : List ℚ :=
      ((wl.zip fl).filter
        (fun p => decide (cfg'.lo ≤ p.1) && decide (p.1 ≤ cfg'.hi))).map
        (fun p => p.2)
    (cfg', List.replicate wl.length (npInv (npVar continuum)))

/-- `Spectrum._mask_dead_pixels`: build the mask `ivar != 0` and index flux,
ivar and wavelength by it. -/
def mask_dead_pixels (wl fl : List ℚ) (iv : List RVal) :
    List ℚ × List ℚ × List RVal :=
  let m := iv.map npNeZero
  (boolMask wl m, boolMask fl m, boolMask iv m)

/-- The processed arrays a constructed `Spectrum` exposes. -/
structure Spectrum where
  wavelength : List ℚ
  flux : List ℚ
  ivar : List RVal
deriving DecidableEq, Repr

/-- `Spectrum.__init__` after the data has been loaded into a table: run the
pipeline stages in order, on the path where the extinction stage does not
raise (with `a_v = none` that stage is a genuine skip — Python returns
`None` and `__init__` discards it; `mkSpectrumChecked` adds the raising
path).  The config value is threaded through `_calculate_ivar` because the
source rebinds the module-level `config.IVAR_INTERVALS` there. -/
def mkSpectrum (pow10 : ℚ → ℚ) (fp99 : List ℚ → ℚ → ℚ → List ℚ)
    (ext_remove : List ℚ → List ℚ → List ℚ) (cfg : Config)
    (table : DataTable) (z : ℚ) (a_v : Option ℚ)
    (linearize : Bool) (rest : Bool) : Config × Spectrum :=
  let wl1 := linearize_wavelength linearize pow10 table.lam
  let _discarded := correct_extinction fp99 ext_remove a_v (31 / 10) wl1 table.flux
  let wf := to_rest_frame rest z wl1 table.flux
  let ci := calculate_ivar cfg table rest z wf.1 wf.2
  let fin := mask_dead_pixels wf.1 wf.2 ci.2
  (ci.1, ⟨fin.1, fin.2.1, fin.2.2⟩)

/-- `Spectrum.__init__` with the extinction stage's error path: after
linearization, `self._correct_extinction()` runs; if it raises, the
exception propagates out of `__init__` and no Spectrum exists.  Otherwise
its return value is discarded and the rest of the pipeline is
`mkSpectrum`. -/
def mkSpectrumChecked (pow10 : ℚ → ℚ) (fp99 : List ℚ → ℚ → ℚ → List ℚ)
    (ext_remove : List ℚ → List ℚ → List ℚ) (cfg : Config)
    (table : DataTable) (z : ℚ) (a_v : Option ℚ)
    (linearize : Bool) (rest : Bool) : PyOutcome (Config × Spectrum) :=
  match correct_extinction fp99 ext_remove a_v (31 / 10)
      (linearize_wavelength linearize pow10 table.lam) table.flux with
  | PyOutcome.attributeError => PyOutcome.attributeError
  | PyOutcome.ok _discarded =>
      PyOutcome.ok (mkSpectrum pow10 fp99 ext_remove cfg table z a_v
        linearize rest)

end FitBEL

namespace FitBEL

/-! ### Helper definitions and lemmas shared by several claims -/

/-- The interval actually used by `_calculate_ivar`: the configured one, or
the configured one scaled by `1 + z` when the spectrum stayed in the
observed frame. -/
def ivarWindow (cfg : Config) (rest : Bool) (z : ℚ) : Config :=
  if rest then cfg else ⟨cfg.lo * (1 + z), cfg.hi * (1 + z)⟩

/-- The continuum flux subset selected by `_calculate_ivar`:
`flux[(wavelength >= lo) & (wavelength <= hi)]`. -/
def continuumOf (cfg : Config) (rest : Bool) (z : ℚ) (wl fl : List ℚ) : List ℚ :=
  ((wl.zip fl).filter (fun p =>
      decide ((ivarWindow cfg rest z).lo ≤ p.1) &&
      decide (p.1 ≤ (ivarWindow cfg rest z).hi))).map (fun p => p.2)

theorem calculate_ivar_some (cfg : Config) (table : DataTable) (rest : Bool)
    (z : ℚ) (wl fl : List ℚ) (iv : List ℚ) (h : table.ivar = some iv) :
    calculate_ivar cfg table rest z wl fl = (cfg, iv.map RVal.fin) := by
  unfold calculate_ivar
  rw [h]

theorem calculate_ivar_none (cfg : Config) (table : DataTable) (rest : Bool)
    (z : ℚ) (wl fl : List ℚ) (h : table.ivar = none) :
    calculate_ivar cfg table rest z wl fl =
      (ivarWindow cfg rest z,
       List.replicate wl.length (npInv (npVar (continuumOf cfg rest z wl fl)))) := by
  unfold calculate_ivar
  rw [h]
  rfl

theorem boolMask_cons {α : Type} (x : α) (xs : List α) (b : Bool)
    (bs : List Bool) :
    boolMask (x :: xs) (b :: bs) =
      if b then x :: boolMask xs bs else boolMask xs bs := by
  cases b <;> simp [boolMask]

theorem boolMask_length {α : Type} :
    ∀ (xs : List α) (m : List Bool), xs.length = m.length →
      (boolMask xs m).length = m.count true
  | [], [], _ => by simp [boolMask]
  | [], _ :: _, h => by simp at h
  | _ :: _, [], h => by simp at h
  | x :: xs, b :: bs, h => by
      have h' : xs.length = bs.length := by simpa using h
      have ih := boolMask_length xs bs h'
      cases b <;> simp [boolMask_cons, ih, List.count_cons]

theorem boolMask_of_all_true {α : Type} :
    ∀ (xs : List α) (m : List Bool), xs.length = m.length →
      (∀ b ∈ m, b = true) → boolMask xs m = xs
  | [], [], _, _ => rfl
  | [], _ :: _, h, _ => by simp at h
  | _ :: _, [], h, _ => by simp at h
  | x :: xs, b :: bs, h, hall => by
      have h' : xs.length = bs.length := by simpa using h
      have hb : b = true := hall b (by simp)
      have ih := boolMask_of_all_true xs bs h' (fun c hc => hall c (by simp [hc]))
      simp [boolMask_cons, hb, ih]

theorem linearize_wavelength_length (e : Bool) (p : ℚ → ℚ) (wl : List ℚ) :
    (linearize_wavelength e p wl).length = wl.length := by
  unfold linearize_wavelength
  cases e with
  | false => rfl
  | true =>
    cases hm : wl.max? with
    | none => simp
    | some m => by_cases h : m < 5 <;> simp [h]

theorem to_rest_frame_lengths (e : Bool) (z : ℚ) (wl fl : List ℚ) :
    (to_rest_frame e z wl fl).1.length = wl.length ∧
    (to_rest_frame e z wl fl).2.length = fl.length := by
  cases e <;> simp [to_rest_frame]

end FitBEL

namespace FitBEL

/-- The spec's description of the continuum selection, written independently
of the source's zip-and-filter shape: walk the aligned (wavelength, flux)
pairs and keep the flux of every pair whose wavelength lies in the closed
interval. -/
def selectWindow (lo hi : ℚ) : List (ℚ × ℚ) → List ℚ
  | [] => []
  | p :: ps =>
    if lo ≤ p.1 ∧ p.1 ≤ hi then p.2 :: selectWindow lo hi ps
    else selectWindow lo hi ps

theorem selectWindow_eq_filter (lo hi : ℚ) :
    ∀ ps : List (ℚ × ℚ),
      selectWindow lo hi ps =
        (ps.filter (fun p => decide (lo ≤ p.1) && decide (p.1 ≤ hi))).map
          (fun p => p.2)
  | [] => rfl
  | p :: ps => by
      have ih := selectWindow_eq_filter lo hi ps
      by_cases h : lo ≤ p.1 ∧ p.1 ≤ hi
      · simp [selectWindow, List.filter_cons, h.1, h.2, ih]
      · rw [Decidable.not_and_iff_or_not] at h
        rcases h with h | h <;> simp [selectWindow, List.filter_cons, h, ih]

theorem ivarWindow_lo (cfg : Config) (rest : Bool) (z : ℚ) :
    (ivarWindow cfg rest z).lo = if rest then cfg.lo else cfg.lo * (1 + z) := by
  cases rest <;> rfl

theorem ivarWindow_hi (cfg : Config) (rest : Bool) (z : ℚ) :
    (ivarWindow cfg rest z).hi = if rest then cfg.hi else cfg.hi * (1 + z) := by
  cases rest <;> rfl

end FitBEL

namespace FitBEL

/-- Claim C2: with an `ivar` column the computation returns that column
verbatim (and changes no configuration); without one, it selects the flux
samples whose wavelength lies in the configured continuum interval with
inclusive bounds (rescaled by `1 + z` exactly when the spectrum was not
moved to rest frame), and broadcasts the single scalar `1 / variance` of
that subset over every pixel of the spectrum. -/
theorem C2_calculate_ivar (cfg : Config) (table : DataTable) (rest : Bool)
    (z : ℚ) (wl fl : List ℚ) :
    (∀ iv, table.ivar = some iv →
      calculate_ivar cfg table rest z wl fl = (cfg, iv.map RVal.fin)) ∧
    (table.ivar = none →
      (calculate_ivar cfg table rest z wl fl).2.length = wl.length ∧
      ∀ x ∈ (calculate_ivar cfg table rest z wl fl).2,
        x = npInv (npVar (selectWindow
          (if rest then cfg.lo else cfg.lo * (1 + z))
          (if rest then cfg.hi else cfg.hi * (1 + z)) (wl.zip fl)))) := by
  constructor
  · intro iv h
    exact calculate_ivar_some cfg table rest z wl fl iv h
  · intro h
    rw [calculate_ivar_none cfg table rest z wl fl h]
    constructor
    · exact List.length_replicate _ _
    · intro x hx
      have hx' := List.eq_of_mem_replicate hx
      rw [hx', selectWindow_eq_filter, ← ivarWindow_lo cfg rest z,
        ← ivarWindow_hi cfg rest z]
      rfl

/-- Witness for C2 at a concrete table without an `ivar` column. -/
theorem C2_witness :
    (calculate_ivar ⟨6, 8⟩ ⟨[5, 6, 7], [1, 3, 1], none⟩ true 0
      [5, 6, 7] [1, 3, 1]).2.length = ([5, 6, 7] : List ℚ).length :=
  ((C2_calculate_ivar ⟨6, 8⟩ ⟨[5, 6, 7], [1, 3, 1], none⟩ true 0
    [5, 6, 7] [1, 3, 1]).2 rfl).1

/-- Claim C3: with delinearization enabled, if the maximum wavelength is
below 5 every sample is replaced by ten to its power (the `pow10` map);
if the maximum is at least 5 the wavelength array is unchanged. -/
theorem C3_linearize (pow10 : ℚ → ℚ) (wl : List ℚ) (m : ℚ)
    (hm : wl.max? = some m) :
    (m < 5 → linearize_wavelength true pow10 wl = wl.map pow10) ∧
    (5 ≤ m → linearize_wavelength true pow10 wl = wl) := by
  have base : linearize_wavelength true pow10 wl =
      if m < 5 then wl.map pow10 else wl := by
    unfold linearize_wavelength
    rw [hm]
    simp
  constructor
  · intro h
    rw [base, if_pos h]
  · intro h
    rw [base, if_neg (not_lt.mpr h)]

/-- Witness for C3 at a concrete log-scale wavelength array. -/
theorem C3_witness :
    linearize_wavelength true (fun q => q + 1) [3, 4] = [4, 5] :=
  ((C3_linearize (fun q => q + 1) [3, 4] 4 (by decide)).1 (by norm_num)).trans
    (by norm_num)

/-- Claim C7: with the rest-frame transform enabled the output wavelength is
the input divided by `1 + z` elementwise and the output flux is the input
multiplied by `1 + z` elementwise, for any redshift `z > -1`; with it
disabled both arrays are unchanged. -/
theorem C7_rest_frame (z : ℚ) (wl fl : List ℚ) (hz : -1 < z) :
    to_rest_frame true z wl fl =
      (wl.map (fun w => w / (1 + z)), fl.map (fun f => f * (1 + z))) ∧
    to_rest_frame false z wl fl = (wl, fl) :=
  ⟨rfl, rfl⟩

/-- Witness for C7 at redshift 1. -/
theorem C7_witness :
    to_rest_frame true 1 [4, 6] [3, 5] = ([2, 3], [6, 10]) ∧
    to_rest_frame false 1 [4, 6] [3, 5] = ([4, 6], [3, 5]) := by
  have h := C7_rest_frame 1 [4, 6] [3, 5] (by norm_num)
  exact ⟨h.1.trans (by norm_num), h.2⟩

/-- Claim C6 says that with an extinction magnitude supplied the stored
flux ends up equal to the de-reddened flux; in the code the stage can never
change the flux.  With `A_v` supplied, `self.wavelength.to_numpy` raises
`AttributeError` (an ndarray has no such attribute) and construction aborts
with no Spectrum at all; without `A_v` the stage is skipped and the
pipeline's result is independent of the extinction-law functions.  So no
construction ever carries de-reddened flux. -/
theorem C6_extinction_never_applied (pow10 : ℚ → ℚ)
    (fp99 fp99' : List ℚ → ℚ → ℚ → List ℚ)
    (er er' : List ℚ → List ℚ → List ℚ) (cfg : Config) (table : DataTable)
    (z av : ℚ) (lin rest : Bool) (wl fl : List ℚ) :
    correct_extinction fp99 er (some av) (31 / 10) wl fl =
      PyOutcome.attributeError ∧
    mkSpectrumChecked pow10 fp99 er cfg table z (some av) lin rest =
      PyOutcome.attributeError ∧
    mkSpectrumChecked pow10 fp99 er cfg table z none lin rest =
      PyOutcome.ok (mkSpectrum pow10 fp99 er cfg table z none lin rest) ∧
    mkSpectrum pow10 fp99 er cfg table z none lin rest =
      mkSpectrum pow10 fp99' er' cfg table z none lin rest :=
  ⟨rfl, rfl, rfl, rfl⟩

/-- Claim C8 says the shared `config.IVAR_INTERVALS` is never changed by a
construction; but a construction with `to_rest_frame` disabled and redshift
1 rebinds it to the doubled interval. -/
theorem C8_config_mutated :
    (mkSpectrum (fun q => q) (fun w _ _ => w) (fun _ f => f) ⟨4000, 4500⟩
        ⟨[8000, 8200], [1, 2], none⟩ 1 none false false).1 = ⟨8000, 9000⟩ ∧
    (⟨8000, 9000⟩ : Config) ≠ ⟨4000, 4500⟩ := by
  constructor
  · norm_num [mkSpectrum, calculate_ivar, linearize_wavelength, to_rest_frame]
  · decide

/-- Claim C9 says every path with an unsupported extension fails with
`UnsupportedFormatError`; but `read_data` has no `else` branch, so a `.csv`
path silently returns Python `None` instead of raising. -/
theorem C9_counterexample :
    read_data "spectrum.csv" [(1, 2)] ⟨[1], [2], none⟩ = none := by
  decide

/-- Claim C9 amended: for every file path whose extension matches neither
supported format, `read_data` returns `None` (no error is raised; the caller
only fails later when it accesses columns on `None`). -/
theorem C9_amended (path : String) (rows : List (ℚ × ℚ)) (t : DataTable)
    (h1 : pyEndsWith path ".txt" = false)
    (h2 : pyEndsWith path ".fits" = false) :
    read_data path rows t = none := by
  unfold read_data
  rw [h1, h2]
  rfl

/-- Witness for the amended C9 at a concrete unsupported path. -/
theorem C9_witness : read_data "sample.dat" [] ⟨[], [], none⟩ = none :=
  C9_amended "sample.dat" [] ⟨[], [], none⟩ (by decide) (by decide)

end FitBEL

namespace FitBEL

/-- Claim C5 says ivar estimation fails with `DegenerateContinuumError` when
the continuum window selects zero samples; but the code raises nothing:
construction with no `ivar` column and a window selecting zero samples
succeeds, returning a Spectrum whose every ivar pixel is nan
(`np.var` of the empty selection is nan and `1 / nan` is nan). -/
theorem C5_counterexample :
    (mkSpectrum (fun q => q) (fun w _ _ => w) (fun _ f => f) ⟨100, 200⟩
        ⟨[1, 2, 3], [4, 5, 6], none⟩ 0 none false true).2 =
      ⟨[1, 2, 3], [4, 5, 6], [RVal.nan, RVal.nan, RVal.nan]⟩ := by
  norm_num [mkSpectrum, calculate_ivar, linearize_wavelength, to_rest_frame,
    mask_dead_pixels, boolMask, npVar, npInv, npNeZero, List.replicate]

/-- Claim C5 amended: ivar estimation never raises.  With no `ivar` column,
an empty continuum selection makes the variance nan, so every pixel's ivar
is set to nan; a selection with zero variance makes every pixel's ivar
infinite.  No `DegenerateContinuumError` exists in the code. -/
theorem C5_amended_ivar (cfg : Config) (table : DataTable) (rest : Bool)
    (z : ℚ) (wl fl : List ℚ) (hnone : table.ivar = none) :
    (continuumOf cfg rest z wl fl = [] →
      (calculate_ivar cfg table rest z wl fl).2 =
        List.replicate wl.length RVal.nan) ∧
    (npVar (continuumOf cfg rest z wl fl) = RVal.fin 0 →
      (calculate_ivar cfg table rest z wl fl).2 =
        List.replicate wl.length RVal.inf) := by
  rw [calculate_ivar_none cfg table rest z wl fl hnone]
  constructor
  · intro h
    rw [h]
    simp [npVar, npInv]
  · intro h
    rw [h]
    simp [npInv]

/-- Witness for the amended C5 at a window selecting zero samples. -/
theorem C5_witness :
    (calculate_ivar ⟨100, 200⟩ ⟨[1, 2, 3], [4, 5, 6], none⟩ true 0
        [1, 2, 3] [4, 5, 6]).2 = [RVal.nan, RVal.nan, RVal.nan] := by
  have h := (C5_amended_ivar ⟨100, 200⟩ ⟨[1, 2, 3], [4, 5, 6], none⟩ true 0
    [1, 2, 3] [4, 5, 6] rfl).1 (by norm_num [continuumOf, ivarWindow])
  exact h

theorem mask_components :
    ∀ (wl fl : List ℚ) (iv : List RVal), fl.length = wl.length →
      iv.length = wl.length →
      boolMask wl (iv.map npNeZero) =
        ((wl.zip (fl.zip iv)).filter (fun t => npNeZero t.2.2)).map
          (fun t => t.1) ∧
      boolMask fl (iv.map npNeZero) =
        ((wl.zip (fl.zip iv)).filter (fun t => npNeZero t.2.2)).map
          (fun t => t.2.1) ∧
      boolMask iv (iv.map npNeZero) =
        ((wl.zip (fl.zip iv)).filter (fun t => npNeZero t.2.2)).map
          (fun t => t.2.2)
  | [], [], [], _, _ => by simp [boolMask]
  | [], _ :: _, _, hf, _ => by simp at hf
  | [], [], _ :: _, _, hi => by simp at hi
  | _ :: _, [], _, hf, _ => by simp at hf
  | _ :: _, _ :: _, [], _, hi => by simp at hi
  | w :: ws, f :: fs, v :: vs, hf, hi => by
      have hf' : fs.length = ws.length := by simpa using hf
      have hi' : vs.length = ws.length := by simpa using hi
      obtain ⟨ih1, ih2, ih3⟩ := mask_components ws fs vs hf' hi'
      by_cases hv : npNeZero v = true
      · simp [boolMask_cons, List.filter_cons, hv, ih1, ih2, ih3]
      · have hv' : npNeZero v = false := by simpa using hv
        simp [boolMask_cons, List.filter_cons, hv', ih1, ih2, ih3]

/-- Claim C4: dead-pixel masking keeps exactly the positions whose ivar
compares unequal to zero, removes each dropped index from wavelength, flux
and ivar simultaneously, and preserves the relative order of the kept
samples: the three outputs are the three projections of the aligned triples
filtered by the keep-mask. -/
theorem C4_mask_dead_pixels (wl fl : List ℚ) (iv : List RVal)
    (hf : fl.length = wl.length) (hi : iv.length = wl.length) :
    mask_dead_pixels wl fl iv =
      (((wl.zip (fl.zip iv)).filter (fun t => npNeZero t.2.2)).map
        (fun t => t.1),
       ((wl.zip (fl.zip iv)).filter (fun t => npNeZero t.2.2)).map
        (fun t => t.2.1),
       ((wl.zip (fl.zip iv)).filter (fun t => npNeZero t.2.2)).map
        (fun t => t.2.2)) := by
  obtain ⟨h1, h2, h3⟩ := mask_components wl fl iv hf hi
  simp [mask_dead_pixels, h1, h2, h3]

/-- Witness for C4: exactly pixels 2 and 5 have ivar zero, and exactly
indices 2 and 5 are removed from all three arrays, order preserved. -/
theorem C4_witness :
    mask_dead_pixels [10, 11, 12, 13, 14, 15] [1, 2, 3, 4, 5, 6]
        [RVal.fin 1, RVal.fin 1, RVal.fin 0, RVal.fin 1, RVal.fin 1,
         RVal.fin 0] =
      ([10, 11, 13, 14], [1, 2, 4, 5],
       [RVal.fin 1, RVal.fin 1, RVal.fin 1, RVal.fin 1]) := by
  have h := C4_mask_dead_pixels [10, 11, 12, 13, 14, 15] [1, 2, 3, 4, 5, 6]
    [RVal.fin 1, RVal.fin 1, RVal.fin 0, RVal.fin 1, RVal.fin 1, RVal.fin 0]
    (by decide) (by decide)
  exact h.trans (by decide)

end FitBEL

namespace FitBEL

/-- Claim C1: for a loaded table with equal-length columns, wavelength and
flux stay index-aligned after linearization and the rest-frame transform,
the computed ivar has the same length as they do, and the final returned
object has wavelength, flux and ivar of equal length. -/
theorem C1_lengths_aligned (pow10 : ℚ → ℚ) (fp99 : List ℚ → ℚ → ℚ → List ℚ)
    (er : List ℚ → List ℚ → List ℚ) (cfg : Config) (table : DataTable)
    (z : ℚ) (a_v : Option ℚ) (lin rest : Bool)
    (hcol : table.flux.length = table.lam.length)
    (hivc : ∀ iv, table.ivar = some iv → iv.length = table.lam.length)
    (wl1 : List ℚ) (wf : List ℚ × List ℚ) (ci : Config × List RVal)
    (h1 : wl1 = linearize_wavelength lin pow10 table.lam)
    (h2 : wf = to_rest_frame rest z wl1 table.flux)
    (h3 : ci = calculate_ivar cfg table rest z wf.1 wf.2) :
    wl1.length = table.flux.length ∧
    wf.1.length = wf.2.length ∧
    ci.2.length = wf.1.length ∧
    (mkSpectrum pow10 fp99 er cfg table z a_v lin rest).2.wavelength.length =
      (mkSpectrum pow10 fp99 er cfg table z a_v lin rest).2.flux.length ∧
    (mkSpectrum pow10 fp99 er cfg table z a_v lin rest).2.flux.length =
      (mkSpectrum pow10 fp99 er cfg table z a_v lin rest).2.ivar.length := by
  subst h1
  subst h2
  subst h3
  have e1 : (linearize_wavelength lin pow10 table.lam).length =
      table.lam.length := linearize_wavelength_length lin pow10 table.lam
  obtain ⟨e2, e3⟩ := to_rest_frame_lengths rest z
    (linearize_wavelength lin pow10 table.lam) table.flux
  have p1 : (linearize_wavelength lin pow10 table.lam).length =
      table.flux.length := by rw [e1, hcol]
  have p2 : (to_rest_frame rest z (linearize_wavelength lin pow10 table.lam)
      table.flux).1.length =
      (to_rest_frame rest z (linearize_wavelength lin pow10 table.lam)
        table.flux).2.length := by rw [e2, e3, p1]
  have p3 : (calculate_ivar cfg table rest z
      (to_rest_frame rest z (linearize_wavelength lin pow10 table.lam)
        table.flux).1
      (to_rest_frame rest z (linearize_wavelength lin pow10 table.lam)
        table.flux).2).2.length =
      (to_rest_frame rest z (linearize_wavelength lin pow10 table.lam)
        table.flux).1.length := by
    cases hiv : table.ivar with
    | some iv =>
      rw [calculate_ivar_some _ _ _ _ _ _ iv hiv]
      rw [List.length_map, hivc iv hiv, e2, e1]
    | none =>
      rw [calculate_ivar_none _ _ _ _ _ _ hiv]
      simp
  refine ⟨p1, p2, ?_⟩
  simp only [mkSpectrum, mask_dead_pixels]
  have hm : ((calculate_ivar cfg table rest z
      (to_rest_frame rest z (linearize_wavelength lin pow10 table.lam)
        table.flux).1
      (to_rest_frame rest z (linearize_wavelength lin pow10 table.lam)
        table.flux).2).2.map npNeZero).length =
      (to_rest_frame rest z (linearize_wavelength lin pow10 table.lam)
        table.flux).1.length := by rw [List.length_map, p3]
  refine ⟨p3, ?_, ?_⟩
  · rw [boolMask_length _ _ hm.symm,
      boolMask_length _ _ (by rw [e3, hcol, ← e1, ← e2, hm])]
  · rw [boolMask_length _ _ (by rw [e3, hcol, ← e1, ← e2, hm]),
      boolMask_length _ _ (List.length_map _ _).symm]

/-- Witness for C1 at a concrete table carrying an `ivar` column. -/
theorem C1_witness :
    (mkSpectrum (fun q => q) (fun w _ _ => w) (fun _ f => f) ⟨0, 10⟩
        ⟨[3, 4], [1, 2], some [5, 6]⟩ 1 none false
        true).2.wavelength.length =
      (mkSpectrum (fun q => q) (fun w _ _ => w) (fun _ f => f) ⟨0, 10⟩
        ⟨[3, 4], [1, 2], some [5, 6]⟩ 1 none false true).2.flux.length ∧
    (mkSpectrum (fun q => q) (fun w _ _ => w) (fun _ f => f) ⟨0, 10⟩
        ⟨[3, 4], [1, 2], some [5, 6]⟩ 1 none false true).2.flux.length =
      (mkSpectrum (fun q => q) (fun w _ _ => w) (fun _ f => f) ⟨0, 10⟩
        ⟨[3, 4], [1, 2], some [5, 6]⟩ 1 none false true).2.ivar.length := by
  have h := C1_lengths_aligned (fun q => q) (fun w _ _ => w) (fun _ f => f)
    ⟨0, 10⟩ ⟨[3, 4], [1, 2], some [5, 6]⟩ 1 none false true
    (by decide)
    (by intro iv hsome; injection hsome with h2; subst h2; rfl)
    [3, 4] ([3 / 2, 2], [2, 4]) (⟨0, 10⟩, [RVal.fin 5, RVal.fin 6])
    rfl (by norm_num [to_rest_frame]) rfl
  exact ⟨h.2.2.2.1, h.2.2.2.2⟩

end FitBEL

namespace FitBEL

/-- Claim C10: the keep-mask is the numpy comparison `ivar != 0`, which is
false only at finite zero and true at nan and at infinity, so non-finite
ivar pixels are retained in all three arrays; and after a zero-variance
continuum window broadcasts the non-finite scalar `1 / 0.0 = inf` over the
spectrum, the final masking stage removes no pixels at all. -/
theorem C10_nonfinite_retained (wl fl : List ℚ) (iv : List RVal)
    (hf : fl.length = wl.length) (hi : iv.length = wl.length)
    (hnf : ∀ v ∈ iv, v = RVal.inf ∨ v = RVal.nan)
    (pow10 : ℚ → ℚ) (fp99 : List ℚ → ℚ → ℚ → List ℚ)
    (er : List ℚ → List ℚ → List ℚ) (cfg : Config) (table : DataTable)
    (z : ℚ) (a_v : Option ℚ) (lin rest : Bool) (wf : List ℚ × List ℚ)
    (hw : wf = to_rest_frame rest z
      (linearize_wavelength lin pow10 table.lam) table.flux)
    (hnone : table.ivar = none)
    (hcols : table.flux.length = table.lam.length)
    (hvar : npVar (continuumOf cfg rest z wf.1 wf.2) = RVal.fin 0) :
    npNeZero (RVal.fin 0) = false ∧ npNeZero RVal.nan = true ∧
    npNeZero RVal.inf = true ∧
    mask_dead_pixels wl fl iv = (wl, fl, iv) ∧
    (mkSpectrum pow10 fp99 er cfg table z a_v lin rest).2 =
      ⟨wf.1, wf.2, List.replicate wf.1.length RVal.inf⟩ := by
  have hmask : ∀ v ∈ iv, npNeZero v = true := by
    intro v hv
    rcases hnf v hv with h | h <;> rw [h] <;> rfl
  have hmlen : (iv.map npNeZero).length = wl.length := by
    rw [List.length_map, hi]
  have hall : ∀ b ∈ iv.map npNeZero, b = true := by
    intro b hb
    obtain ⟨v, hv, hvb⟩ := List.mem_map.mp hb
    rw [← hvb]
    exact hmask v hv
  refine ⟨rfl, rfl, rfl, ?_, ?_⟩
  · simp only [mask_dead_pixels]
    rw [boolMask_of_all_true wl (iv.map npNeZero) hmlen.symm hall,
      boolMask_of_all_true fl (iv.map npNeZero) (by rw [hmlen, hf]) hall,
      boolMask_of_all_true iv (iv.map npNeZero)
        (List.length_map _ _).symm hall]
  · have hl2 : wf.2.length = wf.1.length := by
      obtain ⟨e2, e3⟩ := to_rest_frame_lengths rest z
        (linearize_wavelength lin pow10 table.lam) table.flux
      rw [hw]
      rw [e2, e3, hcols, linearize_wavelength_length]
    simp only [mkSpectrum, mask_dead_pixels]
    rw [← hw, calculate_ivar_none cfg table rest z wf.1 wf.2 hnone]
    rw [hvar]
    have hinv : npInv (RVal.fin 0) = RVal.inf := rfl
    rw [hinv]
    have hrep : (List.replicate wf.1.length RVal.inf).map npNeZero =
        List.replicate wf.1.length true := by
      rw [List.map_replicate]
      rfl
    simp only [hrep]
    have hreptrue : ∀ b ∈ List.replicate wf.1.length true, b = true :=
      fun b hb => List.eq_of_mem_replicate hb
    rw [boolMask_of_all_true wf.1 (List.replicate wf.1.length true)
        (List.length_replicate _ _).symm hreptrue,
      boolMask_of_all_true wf.2 (List.replicate wf.1.length true)
        (by rw [List.length_replicate, hl2]) hreptrue,
      boolMask_of_all_true (List.replicate wf.1.length RVal.inf)
        (List.replicate wf.1.length true)
        (by rw [List.length_replicate, List.length_replicate]) hreptrue]

/-- Witness for C10: a constant-flux continuum window gives zero variance,
the ivar broadcast is infinite, and masking removes nothing. -/
theorem C10_witness :
    mask_dead_pixels [1, 2] [3, 3] [RVal.inf, RVal.nan] =
      ([1, 2], [3, 3], [RVal.inf, RVal.nan]) ∧
    (mkSpectrum (fun q => q) (fun w _ _ => w) (fun _ f => f) ⟨0, 10⟩
        ⟨[1, 2], [3, 3], none⟩ 0 none false true).2 =
      ⟨[1, 2], [3, 3], [RVal.inf, RVal.inf]⟩ := by
  have h := C10_nonfinite_retained [1, 2] [3, 3] [RVal.inf, RVal.nan]
    (by decide) (by decide) (by decide) (fun q => q) (fun w _ _ => w)
    (fun _ f => f) ⟨0, 10⟩ ⟨[1, 2], [3, 3], none⟩ 0 none false true
    ([1, 2], [3, 3])
    (by norm_num [to_rest_frame, linearize_wavelength]) rfl (by decide)
    (by norm_num [continuumOf, ivarWindow, npVar, List.cons_ne_nil])
  exact ⟨h.2.2.2.1, h.2.2.2.2⟩

end FitBEL
